import Mathlib

/-!
Shallow embedding of the learnonauts-server backend (src/index.mjs):
the user store, the JWT-style bearer-token middleware, the login /
registration / password-reset handlers, the accessibility-settings
read and write handlers, and the Gemini proxy handler.  Each handler is
translated as a pure function from its inputs (request fields, the
database contents as a list of rows, the current time, and abstract
collaborators such as the bcrypt hash/compare functions) to the pair of
the resulting database contents and the HTTP response it sends.
-/

namespace Learnonauts

/-- JavaScript truthiness for an optional string request field:
`undefined`/`null` and the empty string are falsy. -/
def jsTruthyStr (o : Option String) : Bool :=
  o.getD "" != ""

/-- A JSON-ish scalar value as sent in request/response bodies. -/
inductive SVal where
  | s (v : String)
  | b (v : Bool)
  | num (v : Int)
  deriving Repr, DecidableEq

/-- JavaScript `String(value)` on the scalar values we model. -/
def svalToString : SVal → String
  | .s v => v
  | .b true => "true"
  | .b false => "false"
  | .num v => toString v

/-- Association-list lookup of a key in a JSON-ish object. -/
def lookupKey (obj : List (String × SVal)) (k : String) : Option SVal :=
  match obj with
  | [] => none
  | (k', v) :: rest => if k' = k then some v else lookupKey rest k

/-- A row of the `users` table (src/db schema: id, email unique,
username unique, bcrypt-hashed password, display name, nullable age,
ban flag, nullable reset key and expiry, timestamps). -/
structure User where
  id : String
  email : String
  username : String
  hashedPassword : String
  displayName : String
  age : Option Int := none
  isBanned : Bool := false
  resetKey : Option String := none
  resetKeyExpires : Option Nat := none
  lastPasswordReset : Option String := none
  profilePictureUrl : Option String := none
  createdAt : String := ""
  updatedAt : String := ""
  deriving Repr, DecidableEq

/-- `db.select().from(users).where(eq(users.email, email))` taking the
first row, as the handlers do with `const [user] = ...`. -/
def findByEmail (dbUsers : List User) (email : String) : Option User :=
  dbUsers.find? (fun u => u.email == email)

/-- `db.select().from(users).where(eq(users.resetKey, key))` taking the
first row.  A SQL `NULL` reset key never equals a present key. -/
def findByResetKey (dbUsers : List User) (key : String) : Option User :=
  dbUsers.find? (fun u => u.resetKey == some key)

/-- The payload carried by a session token (`{ id, email }`). -/
structure TokenPayload where
  id : String
  email : String
  deriving Repr, DecidableEq

/-- A signed JWT-style bearer token.  The `sig*` fields record what the
signature actually covers and which secret produced it; verification
succeeds only when they agree with the visible payload and the
verifier's secret.  Tampering with the payload leaves the `sig*` fields
behind, so a tampered token fails verification. -/
structure SignedToken where
  payload : TokenPayload
  exp : Nat
  sigSecret : String
  sigPayload : TokenPayload
  sigExp : Nat
  deriving Repr, DecidableEq

/-- Token validity window: `expiresIn: '30d'` (in seconds). -/
def thirtyDays : Nat := 30 * 24 * 60 * 60

/-- `createToken` / `jwt.sign(payload, JWT_SECRET, { expiresIn: '30d' })`. -/
def createToken (secret : String) (now : Nat) (p : TokenPayload) : SignedToken :=
  { payload := p, exp := now + thirtyDays,
    sigSecret := secret, sigPayload := p, sigExp := now + thirtyDays }

/-- `jwt.verify(token, JWT_SECRET, cb)`: succeeds exactly when the
signature was produced with the verifier's secret over the token's
visible payload and expiry, and the token is not yet expired. -/
def verifyToken (secret : String) (now : Nat) (t : SignedToken) : Option TokenPayload :=
  if t.sigSecret = secret ∧ t.sigPayload = t.payload ∧ t.sigExp = t.exp ∧ now < t.exp
  then some t.payload else none

/-- Outcome of the `authenticateToken` middleware: either a rejection
with an HTTP status and error body, or (status `none`) the request
proceeds to the protected handler with `req.user` set. -/
structure AuthOutcome where
  status : Option Nat
  error : Option String
  user : Option TokenPayload
  deriving Repr, DecidableEq

/-- The `authenticateToken` middleware (src/index.mjs lines 77-92).
`token` is the value extracted from the `Authorization: Bearer` header;
`none` covers a missing header or a header with no token part. -/
def authenticateToken (secret : String) (now : Nat)
    (token : Option SignedToken) : AuthOutcome :=
  match token with
  | none => { status := some 401, error := some "Access token required", user := none }
  | some t =>
    match verifyToken secret now t with
    | none => { status := some 403, error := some "Invalid or expired token", user := none }
    | some payload => { status := none, error := none, user := some payload }

/-- Response of the login handler. -/
structure LoginResp where
  status : Nat
  error : Option String := none
  message : Option String := none
  userId : Option String := none
  token : Option SignedToken := none
  deriving Repr, DecidableEq

/-- The `POST /api/login` handler (src/index.mjs lines 154-200).
`bcryptCompare password hash` stands for `bcrypt.compare`. -/
def loginHandler (bcryptCompare : String → String → Bool)
    (secret : String) (now : Nat) (dbUsers : List User)
    (email password : Option String) : LoginResp :=
  if !jsTruthyStr email || !jsTruthyStr password then
    { status := 400, error := some "Email and password are required" }
  else
    match findByEmail dbUsers (email.getD "") with
    | none => { status := 401, error := some "Invalid email or password" }
    | some user =>
      if user.isBanned then
        { status := 401, error := some "Account is banned" }
      else if bcryptCompare (password.getD "") user.hashedPassword then
        { status := 200, message := some "Login successful",
          userId := some user.id,
          token := some (createToken secret now ⟨user.id, user.email⟩) }
      else
        { status := 401, error := some "Invalid email or password" }

/-- Response of the registration handler. -/
structure RegisterResp where
  status : Nat
  error : Option String := none
  message : Option String := none
  userId : Option String := none
  deriving Repr, DecidableEq

/-- The `POST /api/register` handler (src/index.mjs lines 95-151).
`bcryptHash` stands for `bcrypt.hash(·, 10)`; `freshId` for the
generated `user_${Date.now()}_${random}` id; `nowIso` for
`new Date().toISOString()`.  Returns the new table contents and the
response. -/
def registerHandler (bcryptHash : String → String) (freshId nowIso : String)
    (dbUsers : List User)
    (email password displayName username : Option String) (age : Option Int) :
    List User × RegisterResp :=
  if !jsTruthyStr email || !jsTruthyStr password
      || !jsTruthyStr displayName || !jsTruthyStr username then
    (dbUsers, { status := 400,
                error := some "Email, password, displayName, and username are required" })
  else
    let e := email.getD ""
    let un := username.getD ""
    match dbUsers.filter (fun u => u.email == e || u.username == un) with
    | conflictUser :: _ =>
      let conflictField := if conflictUser.email = e then "email" else "username"
      (dbUsers, { status := 409, error := some (conflictField ++ " already exists") })
    | [] =>
      let newUser : User :=
        { id := freshId, email := e, username := un,
          hashedPassword := bcryptHash (password.getD ""),
          displayName := displayName.getD "",
          age := if age.getD 0 = 0 then none else age,
          createdAt := nowIso, updatedAt := nowIso }
      (dbUsers ++ [newUser],
       { status := 201, message := some "User registered successfully.",
         userId := some freshId })

/-- Invariant from the spec's data model: emails and usernames are
globally unique across the `users` table. -/
def uniqueUsers (dbUsers : List User) : Prop :=
  dbUsers.Pairwise (fun a b => a.email ≠ b.email ∧ a.username ≠ b.username)

/-- Response shape shared by the password-reset endpoints. -/
structure ResetResp where
  status : Nat
  error : Option String := none
  message : Option String := none
  email : Option String := none
  deriving Repr, DecidableEq

/-- The `POST /api/forgot-password` handler (src/index.mjs lines
203-264).  `freshKey` stands for `generateRandomKey(32)`; `nowMs` for
`Date.now()`; `nowIso` for `new Date().toISOString()`.  The reset key
expiry is one hour (in milliseconds) from now.  Email dispatch is
best-effort side output and carries no response data. -/
def forgotPassword (freshKey : String) (nowMs : Nat) (nowIso : String)
    (dbUsers : List User) (email : Option String) : List User × ResetResp :=
  if !jsTruthyStr email then
    (dbUsers, { status := 400, error := some "Email is required" })
  else
    match findByEmail dbUsers (email.getD "") with
    | none =>
      (dbUsers, { status := 200,
                  message := some "If email exists, password reset instructions have been sent" })
    | some user =>
      let resetKeyExpires := nowMs + 1 * 60 * 60 * 1000
      (dbUsers.map (fun v =>
         if v.id = user.id then
           { v with resetKey := some freshKey,
                    resetKeyExpires := some resetKeyExpires,
                    updatedAt := nowIso }
         else v),
       { status := 200,
         message := some "If email exists, password reset instructions have been sent" })

/-- The `GET /api/verify-reset-key` handler (src/index.mjs lines
267-307).  `new Date(user.resetKeyExpires)` on a SQL `NULL` gives the
epoch, hence `getD 0`.  When the key is found but expired, the handler
clears the stored key before answering. -/
def verifyResetKey (nowMs : Nat) (nowIso : String)
    (dbUsers : List User) (key : Option String) : List User × ResetResp :=
  if !jsTruthyStr key then
    (dbUsers, { status := 400, error := some "Reset key is required" })
  else
    match findByResetKey dbUsers (key.getD "") with
    | none => (dbUsers, { status := 400, error := some "Invalid reset key" })
    | some user =>
      let expiresAt := user.resetKeyExpires.getD 0
      if nowMs > expiresAt then
        (dbUsers.map (fun v =>
           if v.id = user.id then
             { v with resetKey := none, resetKeyExpires := none, updatedAt := nowIso }
           else v),
         { status := 400, error := some "Reset key has expired" })
      else
        (dbUsers, { status := 200, message := some "Valid reset key",
                    email := some user.email })

/-- The `POST /api/reset-password` handler (src/index.mjs lines
310-352).  On an expired key it only reports the error (no clearing);
on success it stores the new password hash and clears the key. -/
def resetPassword (bcryptHash : String → String) (nowMs : Nat) (nowIso : String)
    (dbUsers : List User) (resetKey newPassword : Option String) :
    List User × ResetResp :=
  if !jsTruthyStr resetKey || !jsTruthyStr newPassword then
    (dbUsers, { status := 400, error := some "Reset key and new password are required" })
  else
    match findByResetKey dbUsers (resetKey.getD "") with
    | none => (dbUsers, { status := 400, error := some "Invalid reset key" })
    | some user =>
      let expiresAt := user.resetKeyExpires.getD 0
      if nowMs > expiresAt then
        (dbUsers, { status := 400, error := some "Reset key has expired" })
      else
        (dbUsers.map (fun v =>
           if v.id = user.id then
             { v with hashedPassword := bcryptHash (newPassword.getD ""),
                      resetKey := none, resetKeyExpires := none,
                      lastPasswordReset := some nowIso, updatedAt := nowIso }
           else v),
         { status := 200, message := some "Password reset successfully" })

/-- JavaScript `a || d` on a possibly-null string column: `null` and
the empty string fall back to the default. -/
def jsOrStr (o : Option String) (d : String) : String :=
  match o with
  | some s => if s = "" then d else s
  | none => d

/-- JavaScript `a ?? d` on a possibly-null boolean column: only `null`
falls back (`false` is kept). -/
def jsNullishBool (o : Option Bool) (d : Bool) : Bool :=
  o.getD d

/-- A row of the `settings` table as drizzle returns it (camelCase
properties, every column nullable). -/
structure StoredSettings where
  userEmail : Option String := none
  fontSize : Option String := none
  colorTheme : Option String := none
  darkMode : Option Bool := none
  reducedMotion : Option Bool := none
  speechEnabled : Option Bool := none
  speechSpeed : Option String := none
  speechVolume : Option String := none
  speechInstructions : Option Bool := none
  audioFeedback : Option Bool := none
  soundEffects : Option Bool := none
  readingGuide : Option Bool := none
  textSpacing : Option String := none
  colorOverlay : Option String := none
  breakReminders : Option Bool := none
  sensoryBreaks : Option Bool := none
  simplifiedUi : Option Bool := none
  minimalMode : Option Bool := none
  visibleTimers : Option Bool := none
  cognitiveLoad : Option String := none
  errorHandlingStyle : Option String := none
  learningStyle : Option String := none
  focusOutlines : Option Bool := none
  lineHeight : Option String := none
  wordSpacing : Option String := none
  focusSessions : Option Bool := none
  distractionReduction : Option Bool := none
  feedbackStyle : Option String := none
  soundEnabled : Option Bool := none
  deriving Repr, DecidableEq

/-- The `defaultSettings` object returned by
`GET /api/accessibility-settings` when no settings row exists
(src/index.mjs lines 529-559): snake_case keys, in source order. -/
def defaultSettingsObj (userEmail : String) : List (String × SVal) :=
  [("user_email", .s userEmail),
   ("font_size", .s "medium"),
   ("color_theme", .s "default"),
   ("dark_mode", .b false),
   ("reduced_motion", .b false),
   ("speech_enabled", .b false),
   ("speech_speed", .s "1"),
   ("speech_volume", .s "0.8"),
   ("speech_instructions", .b false),
   ("sound_enabled", .b false),
   ("reading_guide", .b false),
   ("text_spacing", .s "normal"),
   ("color_overlay", .s "none"),
   ("break_reminders", .b false),
   ("sensory_breaks", .b false),
   ("simplified_ui", .b false),
   ("minimal_mode", .b false),
   ("visible_timers", .b false),
   ("cognitive_load", .s "full"),
   ("error_handling_style", .s "standard"),
   ("learning_style", .s "visual"),
   ("focus_outlines", .b false),
   ("audio_feedback", .b false),
   ("sound_effects", .b false),
   ("line_height", .s "normal"),
   ("word_spacing", .s "normal"),
   ("focus_sessions", .b false),
   ("distraction_reduction", .b false),
   ("feedback_style", .s "mixed")]

/-- The `completeSettings` object built for an existing row
(src/index.mjs lines 570-600): camelCase keys, defaults filled in with
`||` for strings and `??` for booleans; `soundEnabled` is mapped from
`audioFeedback`. -/
def completeSettingsObj (userEmail : String) (row : StoredSettings) :
    List (String × SVal) :=
  [("userEmail", .s (jsOrStr row.userEmail userEmail)),
   ("fontSize", .s (jsOrStr row.fontSize "medium")),
   ("colorTheme", .s (jsOrStr row.colorTheme "default")),
   ("darkMode", .b (jsNullishBool row.darkMode false)),
   ("reducedMotion", .b (jsNullishBool row.reducedMotion false)),
   ("speechEnabled", .b (jsNullishBool row.speechEnabled false)),
   ("speechSpeed", .s (jsOrStr row.speechSpeed "1")),
   ("speechVolume", .s (jsOrStr row.speechVolume "0.8")),
   ("speechInstructions", .b (jsNullishBool row.speechInstructions false)),
   ("audioFeedback", .b (jsNullishBool row.audioFeedback false)),
   ("soundEffects", .b (jsNullishBool row.soundEffects false)),
   ("readingGuide", .b (jsNullishBool row.readingGuide false)),
   ("textSpacing", .s (jsOrStr row.textSpacing "normal")),
   ("colorOverlay", .s (jsOrStr row.colorOverlay "none")),
   ("breakReminders", .b (jsNullishBool row.breakReminders false)),
   ("sensoryBreaks", .b (jsNullishBool row.sensoryBreaks false)),
   ("simplifiedUi", .b (jsNullishBool row.simplifiedUi false)),
   ("minimalMode", .b (jsNullishBool row.minimalMode false)),
   ("visibleTimers", .b (jsNullishBool row.visibleTimers false)),
   ("cognitiveLoad", .s (jsOrStr row.cognitiveLoad "full")),
   ("errorHandlingStyle", .s (jsOrStr row.errorHandlingStyle "standard")),
   ("learningStyle", .s (jsOrStr row.learningStyle "visual")),
   ("focusOutlines", .b (jsNullishBool row.focusOutlines false)),
   ("soundEnabled", .b (jsNullishBool row.audioFeedback false)),
   ("lineHeight", .s (jsOrStr row.lineHeight "normal")),
   ("wordSpacing", .s (jsOrStr row.wordSpacing "normal")),
   ("focusSessions", .b (jsNullishBool row.focusSessions false)),
   ("distractionReduction", .b (jsNullishBool row.distractionReduction false)),
   ("feedbackStyle", .s (jsOrStr row.feedbackStyle "mixed"))]

/-- Response of `GET /api/accessibility-settings`. -/
structure GetSettingsResp where
  status : Nat
  message : String
  settings : List (String × SVal)
  deriving Repr, DecidableEq

/-- The `GET /api/accessibility-settings` handler (src/index.mjs lines
466-669) on the happy path: `existing` is the user's settings row, if
any; `hasMissingColumns` records whether the schema-drift fallback
query was taken (it only changes the success message). -/
def getAccessibilitySettings (userEmail : String)
    (existing : Option StoredSettings) (hasMissingColumns : Bool) :
    GetSettingsResp :=
  match existing with
  | none =>
    { status := 200, message := "No existing settings, returning defaults",
      settings := defaultSettingsObj userEmail }
  | some row =>
    { status := 200,
      message :=
        if hasMissingColumns then
          "Settings retrieved successfully (note: some settings require database migration to be stored)"
        else "Settings retrieved successfully",
      settings := completeSettingsObj userEmail row }

/-- The alias table of `PUT /api/accessibility-settings`
(src/index.mjs lines 689-762): client key → database column, `none`
for unrecognized keys. -/
def fieldMap (receivedKey : String) : Option String :=
  match receivedKey with
  | "fontSize" => some "font_size"
  | "font_size" => some "font_size"
  | "colorTheme" => some "color_theme"
  | "color_theme" => some "color_theme"
  | "darkMode" => some "dark_mode"
  | "dark_mode" => some "dark_mode"
  | "reducedMotion" => some "reduced_motion"
  | "reduced_motion" => some "reduced_motion"
  | "focusOutlines" => some "focus_outlines"
  | "focus_outlines" => some "focus_outlines"
  | "speechSynthesis" => some "speech_enabled"
  | "speechEnabled" => some "speech_enabled"
  | "speech_enabled" => some "speech_enabled"
  | "instructionsAloud" => some "speech_instructions"
  | "speechInstructions" => some "speech_instructions"
  | "speech_instructions" => some "speech_instructions"
  | "speechSpeed" => some "speech_speed"
  | "speech_speed" => some "speech_speed"
  | "speechVolume" => some "speech_volume"
  | "speech_volume" => some "speech_volume"
  | "audioFeedback" => some "audio_feedback"
  | "audio_feedback" => some "audio_feedback"
  | "soundEffects" => some "sound_effects"
  | "sound_effects" => some "sound_effects"
  | "readingGuide" => some "reading_guide"
  | "reading_guide" => some "reading_guide"
  | "letterSpacing" => some "text_spacing"
  | "textSpacing" => some "text_spacing"
  | "text_spacing" => some "text_spacing"
  | "lineHeight" => some "line_height"
  | "line_height" => some "line_height"
  | "wordSpacing" => some "word_spacing"
  | "word_spacing" => some "word_spacing"
  | "colorOverlay" => some "color_overlay"
  | "color_overlay" => some "color_overlay"
  | "breakReminders" => some "break_reminders"
  | "break_reminders" => some "break_reminders"
  | "sensoryBreaks" => some "sensory_breaks"
  | "sensory_breaks" => some "sensory_breaks"
  | "visibleTimers" => some "visible_timers"
  | "visible_timers" => some "visible_timers"
  | "focusSessions" => some "focus_sessions"
  | "focus_sessions" => some "focus_sessions"
  | "distractionReduction" => some "distraction_reduction"
  | "distraction_reduction" => some "distraction_reduction"
  | "simplifiedUI" => some "simplified_ui"
  | "simplifiedUi" => some "simplified_ui"
  | "simplified_ui" => some "simplified_ui"
  | "minimalMode" => some "minimal_mode"
  | "minimal_mode" => some "minimal_mode"
  | "cognitiveLoad" => some "cognitive_load"
  | "cognitive_load" => some "cognitive_load"
  | "errorStyle" => some "error_handling_style"
  | "errorHandlingStyle" => some "error_handling_style"
  | "error_handling_style" => some "error_handling_style"
  | "feedbackStyle" => some "feedback_style"
  | "feedback_style" => some "feedback_style"
  | "learningStyle" => some "learning_style"
  | "learning_style" => some "learning_style"
  | _ => none

/-- `dbColumn.replace(/_([a-z])/g, (g) => g[1].toUpperCase())` on the
column name's characters. -/
def camelizeChars : List Char → List Char
  | [] => []
  | '_' :: c :: rest =>
    if c.isLower then c.toUpper :: camelizeChars rest
    else '_' :: c :: camelizeChars rest
  | c :: rest => c :: camelizeChars rest

/-- Snake_case column name to the camelCase drizzle property name. -/
def camelize (s : String) : String :=
  ⟨camelizeChars s.data⟩

/-- The per-field value conversion of the update loop (src/index.mjs
lines 771-777): a boolean `cognitive_load` becomes `'full'`/`'minimal'`,
speech speed/volume are stringified, everything else passes through. -/
def convertValue (dbColumn : String) (v : SVal) : SVal :=
  if dbColumn = "cognitive_load" then
    match v with
    | .b b => .s (if b then "full" else "minimal")
    | _ => v
  else if dbColumn = "speech_speed" ∨ dbColumn = "speech_volume" then
    .s (svalToString v)
  else v

/-- JavaScript object assignment `obj[k] = v` on an association list:
overwrite the existing entry or append a new one. -/
def setField (obj : List (String × SVal)) (k : String) (v : SVal) :
    List (String × SVal) :=
  if obj.any (fun kv => kv.fst == k) then
    obj.map (fun kv => if kv.fst = k then (k, v) else kv)
  else obj ++ [(k, v)]

/-- The `updateData` object built by the loop over the request body
(src/index.mjs lines 764-778): keys translated through `fieldMap`,
column names camelized, values converted. -/
def buildUpdateData (body : List (String × SVal)) : List (String × SVal) :=
  body.foldl
    (fun acc kv =>
      match fieldMap kv.fst with
      | none => acc
      | some dbColumn => setField acc (camelize dbColumn) (convertValue dbColumn kv.snd))
    []

/-- The hardcoded `newSettings` defaults used when inserting a fresh
row (src/index.mjs lines 815-845), before the update is spread on top. -/
def newSettingsDefaults (userEmail : String) : List (String × SVal) :=
  [("userEmail", .s userEmail),
   ("fontSize", .s "medium"),
   ("colorTheme", .s "default"),
   ("darkMode", .b false),
   ("reducedMotion", .b false),
   ("focusOutlines", .b false),
   ("speechEnabled", .b false),
   ("speechSpeed", .s "1"),
   ("speechVolume", .s "0.8"),
   ("speechInstructions", .b false),
   ("audioFeedback", .b false),
   ("soundEffects", .b false),
   ("readingGuide", .b false),
   ("textSpacing", .s "normal"),
   ("lineHeight", .s "normal"),
   ("wordSpacing", .s "normal"),
   ("colorOverlay", .s "none"),
   ("breakReminders", .b false),
   ("sensoryBreaks", .b false),
   ("visibleTimers", .b false),
   ("focusSessions", .b false),
   ("distractionReduction", .b false),
   ("simplifiedUi", .b false),
   ("minimalMode", .b false),
   ("cognitiveLoad", .s "full"),
   ("errorHandlingStyle", .s "standard"),
   ("feedbackStyle", .s "mixed"),
   ("learningStyle", .s "visual")]

/-- JavaScript object spread `{...base, ...upd}`: entries of `upd`
overwrite those of `base`. -/
def overlayObj (base upd : List (String × SVal)) : List (String × SVal) :=
  upd.foldl (fun acc kv => setField acc kv.fst kv.snd) base

/-- Result of `PUT /api/accessibility-settings`: the response plus the
settings-row state afterwards and whether an insert/update statement
was issued. -/
structure PutSettingsResult where
  status : Nat
  message : String
  respSettings : List (String × SVal)
  rowAfter : Option (List (String × SVal))
  writeIssued : Bool
  deriving Repr, DecidableEq

/-- The `PUT /api/accessibility-settings` handler (src/index.mjs lines
672-872): build `updateData` from recognized keys only; if it is empty,
answer without touching the database; otherwise update the existing row
in place or insert defaults overlaid with the update. -/
def putAccessibilitySettings (userEmail : String)
    (body : List (String × SVal)) (existing : Option (List (String × SVal))) :
    PutSettingsResult :=
  let updateData := buildUpdateData body
  if updateData.isEmpty then
    { status := 200, message := "No changes to save",
      respSettings := existing.getD [], rowAfter := existing, writeIssued := false }
  else
    match existing with
    | some row =>
      let newRow := overlayObj row updateData
      { status := 200, message := "Accessibility settings updated successfully",
        respSettings := newRow, rowAfter := some newRow, writeIssued := true }
    | none =>
      let newRow := overlayObj (newSettingsDefaults userEmail) updateData
      { status := 200, message := "Accessibility settings updated successfully",
        respSettings := newRow, rowAfter := some newRow, writeIssued := true }

/-- One prior chat turn as sent by the client (`{ role, text }`). -/
structure ChatMsg where
  role : String
  text : String
  deriving Repr, DecidableEq

/-- A `parts` element of a Gemini candidate (`{ text }`, nullable). -/
structure GPart where
  text : Option String
  deriving Repr, DecidableEq

/-- The `content` object of a Gemini candidate (`parts` may be absent). -/
structure GContent where
  parts : Option (List GPart)
  deriving Repr, DecidableEq

/-- One element of the upstream response's `candidates` array
(`content` may be absent). -/
structure GCandidate where
  content : Option GContent
  deriving Repr, DecidableEq

/-- The upstream Gemini call's outcome as the handler observes it:
either a non-OK HTTP status with an error body, or an OK JSON body
whose `candidates` array may be absent. -/
inductive UpstreamOutcome where
  | httpError (status : Nat) (errorText : String)
  | ok (candidates : Option (List GCandidate))
  deriving Repr, DecidableEq

/-- `data.candidates[0]?.content?.parts?.[0]?.text || ''`. -/
def firstCandidateText (candidates : List GCandidate) : String :=
  match candidates.head? with
  | none => ""
  | some c =>
    match c.content with
    | none => ""
    | some content =>
      match content.parts with
      | none => ""
      | some parts =>
        match parts.head? with
        | none => ""
        | some p => p.text.getD ""

/-- The conversation sent upstream (src/index.mjs lines 1032-1051):
prior turns with `assistant` relabeled to `model`, then the current
message unless it already ends the history. -/
def buildConversation (message : String) (history : List ChatMsg) :
    List (String × String) :=
  let conversationHistory :=
    history.foldl
      (fun acc msg =>
        if msg.role = "user" ∨ msg.role = "assistant" then
          acc ++ [((if msg.role = "assistant" then "model" else "user"), msg.text)]
        else acc)
      []
  match history.getLast? with
  | some lastMessage =>
    if lastMessage.text ≠ message then conversationHistory ++ [("user", message)]
    else conversationHistory
  | none => conversationHistory ++ [("user", message)]

/-- The fixed reply returned when no Gemini API key is configured. -/
def mockReplyText : String :=
  "This is a mock reply. Configure GEMINI_API_KEY on the server to enable real answers."

/-- Response of the `POST /api/gemini` handler, extended with whether
the upstream endpoint was contacted at all. -/
structure GeminiResp where
  status : Nat
  text : Option String := none
  error : Option String := none
  contactedUpstream : Bool := false
  deriving Repr, DecidableEq

/-- The `POST /api/gemini` handler (src/index.mjs lines 1017-1108)
behind `authenticateToken`.  `geminiKey` is the `GEMINI_API_KEY`
configuration value; `upstream` maps the conversation actually sent to
the outcome the Gemini endpoint produces for it. -/
def geminiHandler (geminiKey : Option String)
    (upstream : List (String × String) → UpstreamOutcome)
    (message : Option String) (history : List ChatMsg) : GeminiResp :=
  let msg := message.getD ""
  if msg = "" then
    { status := 400, error := some "Message is required" }
  else if !jsTruthyStr geminiKey then
    { status := 200, text := some mockReplyText }
  else
    match upstream (buildConversation msg history) with
    | .httpError _ _ =>
      { status := 500, error := some "Gemini request failed", contactedUpstream := true }
    | .ok candidates =>
      if candidates.getD [] = [] then
        { status := 500, error := some "No response from Gemini API",
          contactedUpstream := true }
      else
        let text := firstCandidateText (candidates.getD [])
        if text = "" then
          { status := 500, error := some "Empty response from Gemini API",
            contactedUpstream := true }
        else
          { status := 200, text := some text, contactedUpstream := true }

/-! ## Theorems about the embedded handlers -/

/-- C8: for every `POST /api/forgot-password` request carrying a
non-empty email, the response has status 200 and the same message body
whether or not a user with that email exists — the response is a
constant independent of the database contents. -/
theorem forgotPassword_uniform_response (freshKey : String) (nowMs : Nat)
    (nowIso : String) (dbUsers : List User) (email : Option String)
    (h : jsTruthyStr email = true) :
    (forgotPassword freshKey nowMs nowIso dbUsers email).snd =
      { status := 200,
        message := some "If email exists, password reset instructions have been sent" } := by
  unfold forgotPassword
  rw [h]
  cases findByEmail dbUsers (email.getD "") <;> rfl

/-- Witness for C8 at a concrete request, on an empty database and on a
database containing the addressed user. -/
theorem forgotPassword_uniform_response_witness :
    jsTruthyStr (some "a@b.c") = true ∧
    (forgotPassword "freshkey" 0 "iso" [] (some "a@b.c")).snd =
      { status := 200,
        message := some "If email exists, password reset instructions have been sent" } ∧
    (forgotPassword "freshkey" 0 "iso"
        [{ id := "u1", email := "a@b.c", username := "alice",
           hashedPassword := "h", displayName := "A" }] (some "a@b.c")).snd =
      { status := 200,
        message := some "If email exists, password reset instructions have been sent" } :=
  ⟨by decide,
   forgotPassword_uniform_response "freshkey" 0 "iso" [] (some "a@b.c") (by decide),
   forgotPassword_uniform_response "freshkey" 0 "iso"
     [{ id := "u1", email := "a@b.c", username := "alice",
        hashedPassword := "h", displayName := "A" }] (some "a@b.c") (by decide)⟩

/-- C9: for every authenticated `POST /api/gemini` request whose
upstream call succeeds with an OK status but whose body has a missing
or empty candidate list, the proxy answers HTTP 500 with the
"No response from Gemini API" error and no text, never a 200 success
with blank text. -/
theorem gemini_no_candidates_error (geminiKey : Option String)
    (upstream : List (String × String) → UpstreamOutcome)
    (message : Option String) (history : List ChatMsg)
    (candidates : Option (List GCandidate))
    (hmsg : jsTruthyStr message = true)
    (hkey : jsTruthyStr geminiKey = true)
    (hup : upstream (buildConversation (message.getD "") history) = .ok candidates)
    (hempty : candidates.getD [] = []) :
    geminiHandler geminiKey upstream message history =
      { status := 500, text := none,
        error := some "No response from Gemini API", contactedUpstream := true } := by
  have hm : message.getD "" ≠ "" := by
    simpa [jsTruthyStr] using hmsg
  unfold geminiHandler
  rw [if_neg hm, hkey]
  simp [hup, hempty]

/-- Witness for C9: a concrete request against an upstream returning an
OK body with an empty candidate list. -/
theorem gemini_no_candidates_error_witness :
    jsTruthyStr (some "hello") = true ∧
    jsTruthyStr (some "api-key") = true ∧
    geminiHandler (some "api-key") (fun _ => .ok (some [])) (some "hello") [] =
      { status := 500, text := none,
        error := some "No response from Gemini API", contactedUpstream := true } :=
  ⟨by decide, by decide,
   gemini_no_candidates_error (some "api-key") (fun _ => .ok (some []))
     (some "hello") [] (some []) (by decide) (by decide) rfl rfl⟩

/-- C10: for every authenticated `POST /api/gemini` request with a
non-empty message, when `GEMINI_API_KEY` is unset the handler answers
HTTP 200 with the fixed mock reply text and never contacts the
upstream endpoint. -/
theorem gemini_mock_when_key_unset
    (upstream : List (String × String) → UpstreamOutcome)
    (message : Option String) (history : List ChatMsg)
    (hmsg : jsTruthyStr message = true) :
    geminiHandler none upstream message history =
      { status := 200, text := some mockReplyText,
        error := none, contactedUpstream := false } := by
  have hm : message.getD "" ≠ "" := by
    simpa [jsTruthyStr] using hmsg
  unfold geminiHandler
  rw [if_neg hm]
  rfl

/-- Witness for C10 at a concrete request. -/
theorem gemini_mock_when_key_unset_witness :
    jsTruthyStr (some "hello") = true ∧
    geminiHandler none (fun _ => .ok none) (some "hello") [] =
      { status := 200, text := some mockReplyText,
        error := none, contactedUpstream := false } :=
  ⟨by decide,
   gemini_mock_when_key_unset (fun _ => .ok none) (some "hello") [] (by decide)⟩

/-- C5 counterexample: for a user with no stored settings row the
returned default object carries the snake_case keys of the source, so
the camelCase keys `fontSize` and `darkMode` named by the claim are
absent from it. -/
theorem getSettings_defaults_camelCase_keys_absent :
    lookupKey (getAccessibilitySettings "user@example.com" none false).settings
      "fontSize" = none ∧
    lookupKey (getAccessibilitySettings "user@example.com" none false).settings
      "darkMode" = none ∧
    lookupKey (getAccessibilitySettings "user@example.com" none false).settings
      "font_size" = some (.s "medium") := by
  refine ⟨rfl, rfl, rfl⟩

/-- C5 amended: for every authenticated user with no stored settings
row, `GET /api/accessibility-settings` answers HTTP 200 with the fixed,
fully-populated default object — all 29 fields present, with font size
`"medium"` and dark mode `false` under the snake_case keys `font_size`
and `dark_mode` — never a partial or null settings object. -/
theorem getSettings_no_row_defaults (userEmail : String) (hasMissingColumns : Bool) :
    (getAccessibilitySettings userEmail none hasMissingColumns).status = 200 ∧
    (getAccessibilitySettings userEmail none hasMissingColumns).settings.map Prod.fst =
      ["user_email", "font_size", "color_theme", "dark_mode", "reduced_motion",
       "speech_enabled", "speech_speed", "speech_volume", "speech_instructions",
       "sound_enabled", "reading_guide", "text_spacing", "color_overlay",
       "break_reminders", "sensory_breaks", "simplified_ui", "minimal_mode",
       "visible_timers", "cognitive_load", "error_handling_style", "learning_style",
       "focus_outlines", "audio_feedback", "sound_effects", "line_height",
       "word_spacing", "focus_sessions", "distraction_reduction", "feedback_style"] ∧
    lookupKey (getAccessibilitySettings userEmail none hasMissingColumns).settings
      "font_size" = some (.s "medium") ∧
    lookupKey (getAccessibilitySettings userEmail none hasMissingColumns).settings
      "dark_mode" = some (.b false) := by
  refine ⟨rfl, rfl, rfl, rfl⟩

/-- C4 counterexample: a present token signed with a different secret
is rejected with HTTP 403, not 401 as the claim's final clause says. -/
theorem auth_wrong_token_is_403_not_401 :
    (authenticateToken "server-secret" 0 (some
        { payload := { id := "u1", email := "a@b.c" }, exp := 1000,
          sigSecret := "other-secret",
          sigPayload := { id := "u1", email := "a@b.c" }, sigExp := 1000 })).status
      = some 403 ∧
    (some 403 : Option Nat) ≠ some 401 := by
  refine ⟨rfl, by decide⟩

/-- C4 amended: on a bearer-protected endpoint a request with no token
gets HTTP 401; a present token that fails verification — tampered
payload, wrong signing secret, or expired — gets HTTP 403 with the same
error body in all three cases, so a wrong (present but invalid) token
surfaces 403, while only a missing token surfaces 401. -/
theorem auth_token_failure_modes (secret : String) (now : Nat) (t : SignedToken) :
    authenticateToken secret now none =
      { status := some 401, error := some "Access token required", user := none } ∧
    (t.sigSecret ≠ secret →
      authenticateToken secret now (some t) =
        { status := some 403, error := some "Invalid or expired token", user := none }) ∧
    (t.sigPayload ≠ t.payload →
      authenticateToken secret now (some t) =
        { status := some 403, error := some "Invalid or expired token", user := none }) ∧
    (t.exp ≤ now →
      authenticateToken secret now (some t) =
        { status := some 403, error := some "Invalid or expired token", user := none }) := by
  refine ⟨rfl, ?_, ?_, ?_⟩
  · intro h
    simp [authenticateToken, verifyToken, h]
  · intro h
    simp [authenticateToken, verifyToken, h]
  · intro h
    have h' : ¬ now < t.exp := not_lt.mpr h
    simp [authenticateToken, verifyToken, h']

/-- Witness for C4 at a concrete secret, time and token that is at once
wrongly signed, tampered with and expired. -/
theorem auth_token_failure_modes_witness :
    authenticateToken "s" 10 none =
      { status := some 401, error := some "Access token required", user := none } ∧
    authenticateToken "s" 10 (some
        { payload := { id := "u1", email := "a@b.c" }, exp := 5,
          sigSecret := "x", sigPayload := { id := "u2", email := "a@b.c" },
          sigExp := 5 }) =
      { status := some 403, error := some "Invalid or expired token", user := none } :=
  ⟨(auth_token_failure_modes "s" 10
      { payload := { id := "u1", email := "a@b.c" }, exp := 5,
        sigSecret := "x", sigPayload := { id := "u2", email := "a@b.c" },
        sigExp := 5 }).1,
   (auth_token_failure_modes "s" 10
      { payload := { id := "u1", email := "a@b.c" }, exp := 5,
        sigSecret := "x", sigPayload := { id := "u2", email := "a@b.c" },
        sigExp := 5 }).2.1 (by decide)⟩

/-- C1 counterexample: a banned account presenting its correct password
is refused with the distinct message "Account is banned", not the
generic string used for an unknown email, so the three 401 cases do not
all share one message. -/
theorem login_banned_message_differs :
    (loginHandler (fun p h => p == h) "sec" 0
        [{ id := "u1", email := "a@b.c", username := "alice",
           hashedPassword := "pw", displayName := "A", isBanned := true }]
        (some "a@b.c") (some "pw")).error = some "Account is banned" ∧
    (loginHandler (fun p h => p == h) "sec" 0 []
        (some "a@b.c") (some "pw")).error = some "Invalid email or password" ∧
    (some "Account is banned" : Option String) ≠ some "Invalid email or password" := by
  refine ⟨rfl, rfl, by decide⟩

/-- C1 amended: for every login request with a present email and
password, all three failure cases answer HTTP 401; the unknown-email
and password-mismatch cases share the same generic message, while a
banned account with its correct (or any) password gets the distinct
message "Account is banned", so the response does reveal the banned
case. -/
theorem login_failure_modes (bcryptCompare : String → String → Bool)
    (secret : String) (now : Nat) (dbUsers : List User)
    (email password : Option String)
    (he : jsTruthyStr email = true) (hp : jsTruthyStr password = true) :
    (findByEmail dbUsers (email.getD "") = none →
      loginHandler bcryptCompare secret now dbUsers email password =
        { status := 401, error := some "Invalid email or password" }) ∧
    (∀ u, findByEmail dbUsers (email.getD "") = some u → u.isBanned = true →
      loginHandler bcryptCompare secret now dbUsers email password =
        { status := 401, error := some "Account is banned" }) ∧
    (∀ u, findByEmail dbUsers (email.getD "") = some u → u.isBanned = false →
      bcryptCompare (password.getD "") u.hashedPassword = false →
      loginHandler bcryptCompare secret now dbUsers email password =
        { status := 401, error := some "Invalid email or password" }) := by
  refine ⟨?_, ?_, ?_⟩
  · intro hfind
    simp [loginHandler, he, hp, hfind]
  · intro u hfind hban
    simp [loginHandler, he, hp, hfind, hban]
  · intro u hfind hban hcmp
    simp [loginHandler, he, hp, hfind, hban, hcmp]

/-- Witness for C1 at concrete requests: an unknown email and a
password mismatch both yield the generic 401. -/
theorem login_failure_modes_witness :
    loginHandler (fun p h => p == h) "sec" 0 [] (some "a@b.c") (some "pw") =
      { status := 401, error := some "Invalid email or password" } ∧
    loginHandler (fun p h => p == h) "sec" 0
        [{ id := "u1", email := "a@b.c", username := "alice",
           hashedPassword := "right", displayName := "A" }]
        (some "a@b.c") (some "wrong") =
      { status := 401, error := some "Invalid email or password" } :=
  ⟨(login_failure_modes (fun p h => p == h) "sec" 0 [] (some "a@b.c") (some "pw")
      (by decide) (by decide)).1 rfl,
   (login_failure_modes (fun p h => p == h) "sec" 0
      [{ id := "u1", email := "a@b.c", username := "alice",
         hashedPassword := "right", displayName := "A" }]
      (some "a@b.c") (some "wrong") (by decide) (by decide)).2.2
     { id := "u1", email := "a@b.c", username := "alice",
       hashedPassword := "right", displayName := "A" } rfl rfl (by decide)⟩

/-- The update-building fold leaves its accumulator untouched when no
body key translates through the alias table. -/
theorem foldl_updateData_of_unmapped (body : List (String × SVal))
    (acc : List (String × SVal))
    (h : ∀ kv ∈ body, fieldMap kv.fst = none) :
    body.foldl
      (fun acc kv =>
        match fieldMap kv.fst with
        | none => acc
        | some dbColumn => setField acc (camelize dbColumn) (convertValue dbColumn kv.snd))
      acc = acc := by
  induction body generalizing acc with
  | nil => rfl
  | cons kv rest ih =>
    have hkv : fieldMap kv.fst = none := h kv (List.mem_cons_self kv rest)
    have hrest : ∀ kv' ∈ rest, fieldMap kv'.fst = none :=
      fun kv' hkv' => h kv' (List.mem_cons_of_mem kv hkv')
    simp only [List.foldl_cons, hkv]
    exact ih acc hrest

/-- C6: an authenticated `PUT /api/accessibility-settings` whose body
contains only keys the alias table does not recognize performs no
database write: the stored row (present or absent) is left unchanged,
no insert or update statement is issued, and the handler answers 200
"No changes to save". -/
theorem putSettings_unrecognized_keys_no_write (userEmail : String)
    (body : List (String × SVal)) (existing : Option (List (String × SVal)))
    (h : ∀ kv ∈ body, fieldMap kv.fst = none) :
    (putAccessibilitySettings userEmail body existing).rowAfter = existing ∧
    (putAccessibilitySettings userEmail body existing).writeIssued = false ∧
    (putAccessibilitySettings userEmail body existing).status = 200 ∧
    (putAccessibilitySettings userEmail body existing).message = "No changes to save" := by
  have hb : buildUpdateData body = [] := foldl_updateData_of_unmapped body [] h
  unfold putAccessibilitySettings
  rw [hb]
  exact ⟨rfl, rfl, rfl, rfl⟩

/-- Witness for C6 on a concrete body with a single unrecognized key,
against both an existing row and an absent row. -/
theorem putSettings_unrecognized_keys_no_write_witness :
    (∀ kv ∈ [(("unknownKey" : String), SVal.s "x")], fieldMap kv.fst = none) ∧
    (putAccessibilitySettings "a@b.c" [("unknownKey", SVal.s "x")]
        (some [("fontSize", SVal.s "large")])).rowAfter =
      some [("fontSize", SVal.s "large")] ∧
    (putAccessibilitySettings "a@b.c" [("unknownKey", SVal.s "x")]
        (some [("fontSize", SVal.s "large")])).writeIssued = false ∧
    (putAccessibilitySettings "a@b.c" [("unknownKey", SVal.s "x")] none).rowAfter = none :=
  ⟨by decide,
   (putSettings_unrecognized_keys_no_write "a@b.c" [("unknownKey", SVal.s "x")]
      (some [("fontSize", SVal.s "large")]) (by decide)).1,
   (putSettings_unrecognized_keys_no_write "a@b.c" [("unknownKey", SVal.s "x")]
      (some [("fontSize", SVal.s "large")]) (by decide)).2.1,
   (putSettings_unrecognized_keys_no_write "a@b.c" [("unknownKey", SVal.s "x")]
      none (by decide)).1⟩

/-- C7: a registration request whose email equals an existing user's
email, or whose username equals an existing user's username, fails with
HTTP 409 and inserts no record; and registration always preserves the
global uniqueness of emails and usernames over the users table. -/
theorem register_conflict_and_uniqueness (bcryptHash : String → String)
    (freshId nowIso : String) (dbUsers : List User)
    (email password displayName username : Option String) (age : Option Int) :
    ((jsTruthyStr email = true ∧ jsTruthyStr password = true ∧
      jsTruthyStr displayName = true ∧ jsTruthyStr username = true) →
     (∃ u ∈ dbUsers, u.email = email.getD "" ∨ u.username = username.getD "") →
     ((registerHandler bcryptHash freshId nowIso dbUsers
         email password displayName username age).snd.status = 409 ∧
      (registerHandler bcryptHash freshId nowIso dbUsers
         email password displayName username age).fst = dbUsers)) ∧
    (uniqueUsers dbUsers →
      uniqueUsers (registerHandler bcryptHash freshId nowIso dbUsers
        email password displayName username age).fst) := by
  constructor
  · rintro ⟨he, hp, hd, hu⟩ ⟨u, hmem, hor⟩
    have hpred : (fun v : User => v.email == email.getD "" || v.username == username.getD "") u = true := by
      rcases hor with h | h <;> simp [h]
    cases hf : dbUsers.filter
        (fun v => v.email == email.getD "" || v.username == username.getD "") with
    | nil =>
      exact absurd hpred (by simpa using (List.filter_eq_nil_iff.mp hf u hmem))
    | cons c rest =>
      unfold registerHandler
      simp [he, hp, hd, hu, hf]
  · intro huniq
    unfold registerHandler
    by_cases hguard : (!jsTruthyStr email || !jsTruthyStr password
        || !jsTruthyStr displayName || !jsTruthyStr username) = true
    · rw [if_pos hguard]
      exact huniq
    · rw [if_neg hguard]
      cases hf : dbUsers.filter
          (fun v => v.email == email.getD "" || v.username == username.getD "") with
      | cons c rest =>
        simp only [hf]
        exact huniq
      | nil =>
        have hall : ∀ u ∈ dbUsers,
            u.email ≠ email.getD "" ∧ u.username ≠ username.getD "" := by
          intro u hm
          have h' := List.filter_eq_nil_iff.mp hf u hm
          simpa using h'
        unfold uniqueUsers at huniq ⊢
        simp only [hf]
        rw [List.pairwise_append]
        refine ⟨huniq, by simp, ?_⟩
        intro a ha b hb
        rw [List.mem_singleton] at hb
        subst hb
        exact ⟨(hall a ha).1, (hall a ha).2⟩

/-- Witness for C7: registering a second account with an existing email
is refused with 409 and leaves the table unchanged. -/
theorem register_conflict_and_uniqueness_witness :
    (registerHandler (fun s => s) "u2" "iso"
        [{ id := "u1", email := "a@b.c", username := "alice",
           hashedPassword := "h", displayName := "A" }]
        (some "a@b.c") (some "pw") (some "New") (some "newuser") none).snd.status = 409 ∧
    (registerHandler (fun s => s) "u2" "iso"
        [{ id := "u1", email := "a@b.c", username := "alice",
           hashedPassword := "h", displayName := "A" }]
        (some "a@b.c") (some "pw") (some "New") (some "newuser") none).fst =
      [{ id := "u1", email := "a@b.c", username := "alice",
         hashedPassword := "h", displayName := "A" }] :=
  (register_conflict_and_uniqueness (fun s => s) "u2" "iso"
      [{ id := "u1", email := "a@b.c", username := "alice",
         hashedPassword := "h", displayName := "A" }]
      (some "a@b.c") (some "pw") (some "New") (some "newuser") none).1
    ⟨by decide, by decide, by decide, by decide⟩
    ⟨{ id := "u1", email := "a@b.c", username := "alice",
       hashedPassword := "h", displayName := "A" },
     by simp, Or.inl rfl⟩

/-- C3 counterexample: `POST /api/reset-password` presented with a key
it finds but that has expired reports the error yet leaves the stored
reset key and expiry untouched — it does not clear them as the claim
says. -/
theorem resetPassword_expired_leaves_key :
    (resetPassword (fun s => s) 100 "iso"
        [{ id := "u1", email := "a@b.c", username := "alice",
           hashedPassword := "h", displayName := "A",
           resetKey := some "rk", resetKeyExpires := some 10 }]
        (some "rk") (some "np")).fst =
      [{ id := "u1", email := "a@b.c", username := "alice",
         hashedPassword := "h", displayName := "A",
         resetKey := some "rk", resetKeyExpires := some 10 }] ∧
    (resetPassword (fun s => s) 100 "iso"
        [{ id := "u1", email := "a@b.c", username := "alice",
           hashedPassword := "h", displayName := "A",
           resetKey := some "rk", resetKeyExpires := some 10 }]
        (some "rk") (some "np")).snd.error = some "Reset key has expired" := by
  refine ⟨rfl, rfl⟩

/-- C3 amended: both endpoints independently check expiry against the
current time; `GET /api/verify-reset-key` clears the stored reset key
and expiry when the presented key is found but expired, while
`POST /api/reset-password` leaves them unchanged in that case and
clears them (storing the new password hash) only on successful
consumption. -/
theorem resetKey_clearing_behavior (bcryptHash : String → String)
    (dbUsers : List User) (nowMs : Nat) (nowIso : String)
    (k : String) (np : Option String) (u : User) :
    (k ≠ "" → findByResetKey dbUsers k = some u →
      u.resetKeyExpires.getD 0 < nowMs →
      ((verifyResetKey nowMs nowIso dbUsers (some k)).fst =
         dbUsers.map (fun v => if v.id = u.id then
           { v with resetKey := none, resetKeyExpires := none,
                    updatedAt := nowIso } else v) ∧
       (verifyResetKey nowMs nowIso dbUsers (some k)).snd.status = 400 ∧
       (resetPassword bcryptHash nowMs nowIso dbUsers (some k) np).fst = dbUsers ∧
       (resetPassword bcryptHash nowMs nowIso dbUsers (some k) np).snd.status = 400)) ∧
    (jsTruthyStr np = true → k ≠ "" → findByResetKey dbUsers k = some u →
      ¬ u.resetKeyExpires.getD 0 < nowMs →
      ((resetPassword bcryptHash nowMs nowIso dbUsers (some k) np).fst =
         dbUsers.map (fun v => if v.id = u.id then
           { v with hashedPassword := bcryptHash (np.getD ""),
                    resetKey := none, resetKeyExpires := none,
                    lastPasswordReset := some nowIso,
                    updatedAt := nowIso } else v) ∧
       (resetPassword bcryptHash nowMs nowIso dbUsers (some k) np).snd.status = 200)) := by
  constructor
  · intro hk hfind hexp
    have hkt : jsTruthyStr (some k) = true := by simp [jsTruthyStr, hk]
    have hgt : nowMs > u.resetKeyExpires.getD 0 := hexp
    refine ⟨?_, ?_, ?_, ?_⟩
    · unfold verifyResetKey
      simp [hkt, hfind, hgt]
    · unfold verifyResetKey
      simp [hkt, hfind, hgt]
    · unfold resetPassword
      by_cases hnp : jsTruthyStr np = true
      · simp [hkt, hnp, hfind, hgt]
      · have hnpf : jsTruthyStr np = false := by simpa using hnp
        simp [hkt, hnpf]
    · unfold resetPassword
      by_cases hnp : jsTruthyStr np = true
      · simp [hkt, hnp, hfind, hgt]
      · have hnpf : jsTruthyStr np = false := by simpa using hnp
        simp [hkt, hnpf]
  · intro hnp hk hfind hexp
    have hkt : jsTruthyStr (some k) = true := by simp [jsTruthyStr, hk]
    have hle : ¬ nowMs > u.resetKeyExpires.getD 0 := hexp
    constructor
    · unfold resetPassword
      simp [hkt, hnp, hfind, hle]
    · unfold resetPassword
      simp [hkt, hnp, hfind, hle]

/-- Witness for C3 at concrete databases: an expired key is cleared by
verification but kept by reset-password, and a live key is consumed. -/
theorem resetKey_clearing_behavior_witness :
    ((verifyResetKey 100 "iso"
        [{ id := "u1", email := "a@b.c", username := "alice",
           hashedPassword := "h", displayName := "A",
           resetKey := some "rk", resetKeyExpires := some 10 }] (some "rk")).fst =
      [{ id := "u1", email := "a@b.c", username := "alice",
         hashedPassword := "h", displayName := "A",
         resetKey := none, resetKeyExpires := none, updatedAt := "iso" }] ∧
     (verifyResetKey 100 "iso"
        [{ id := "u1", email := "a@b.c", username := "alice",
           hashedPassword := "h", displayName := "A",
           resetKey := some "rk", resetKeyExpires := some 10 }] (some "rk")).snd.status = 400 ∧
     (resetPassword (fun s => s) 100 "iso"
        [{ id := "u1", email := "a@b.c", username := "alice",
           hashedPassword := "h", displayName := "A",
           resetKey := some "rk", resetKeyExpires := some 10 }]
        (some "rk") (some "np")).fst =
      [{ id := "u1", email := "a@b.c", username := "alice",
         hashedPassword := "h", displayName := "A",
         resetKey := some "rk", resetKeyExpires := some 10 }] ∧
     (resetPassword (fun s => s) 100 "iso"
        [{ id := "u1", email := "a@b.c", username := "alice",
           hashedPassword := "h", displayName := "A",
           resetKey := some "rk", resetKeyExpires := some 10 }]
        (some "rk") (some "np")).snd.status = 400) ∧
    ((resetPassword (fun s => s) 5 "iso"
        [{ id := "u1", email := "a@b.c", username := "alice",
           hashedPassword := "h", displayName := "A",
           resetKey := some "rk", resetKeyExpires := some 10 }]
        (some "rk") (some "np")).fst =
      [{ id := "u1", email := "a@b.c", username := "alice",
         hashedPassword := "np", displayName := "A",
         resetKey := none, resetKeyExpires := none,
         lastPasswordReset := some "iso", updatedAt := "iso" }] ∧
     (resetPassword (fun s => s) 5 "iso"
        [{ id := "u1", email := "a@b.c", username := "alice",
           hashedPassword := "h", displayName := "A",
           resetKey := some "rk", resetKeyExpires := some 10 }]
        (some "rk") (some "np")).snd.status = 200) := by
  constructor
  · have h := (resetKey_clearing_behavior (fun s => s)
        [{ id := "u1", email := "a@b.c", username := "alice",
           hashedPassword := "h", displayName := "A",
           resetKey := some "rk", resetKeyExpires := some 10 }] 100 "iso" "rk" (some "np")
        { id := "u1", email := "a@b.c", username := "alice",
          hashedPassword := "h", displayName := "A",
          resetKey := some "rk", resetKeyExpires := some 10 }).1
      (by decide) rfl (by decide)
    exact ⟨h.1, h.2.1, h.2.2.1, h.2.2.2⟩
  · have h := (resetKey_clearing_behavior (fun s => s)
        [{ id := "u1", email := "a@b.c", username := "alice",
           hashedPassword := "h", displayName := "A",
           resetKey := some "rk", resetKeyExpires := some 10 }] 5 "iso" "rk" (some "np")
        { id := "u1", email := "a@b.c", username := "alice",
          hashedPassword := "h", displayName := "A",
          resetKey := some "rk", resetKeyExpires := some 10 }).2
      (by decide) (by decide) rfl (by decide)
    exact ⟨h.1, h.2⟩

/-- Inversion of a successful `POST /api/reset-password`: success means
the checks passed, some user held the key, and the table afterwards is
the table with that user's password replaced and key cleared. -/
theorem resetPassword_success_inversion (bcryptHash : String → String)
    (nowMs : Nat) (nowIso : String) (dbUsers : List User)
    (k : String) (np : Option String)
    (hsucc : (resetPassword bcryptHash nowMs nowIso dbUsers (some k) np).snd.status = 200) :
    jsTruthyStr (some k) = true ∧
    ∃ u, findByResetKey dbUsers k = some u ∧
      (resetPassword bcryptHash nowMs nowIso dbUsers (some k) np).fst =
        dbUsers.map (fun v => if v.id = u.id then
          { v with hashedPassword := bcryptHash (np.getD ""),
                   resetKey := none, resetKeyExpires := none,
                   lastPasswordReset := some nowIso,
                   updatedAt := nowIso } else v) := by
  unfold resetPassword at hsucc ⊢
  by_cases hg : (!jsTruthyStr (some k) || !jsTruthyStr np) = true
  · rw [if_pos hg] at hsucc
    simp at hsucc
  · have hkt : jsTruthyStr (some k) = true := by
      by_contra hc
      exact hg (by simp [eq_false_of_ne_true hc])
    rw [if_neg hg] at hsucc ⊢
    simp only [Option.getD_some] at hsucc ⊢
    refine ⟨hkt, ?_⟩
    cases hfind : findByResetKey dbUsers k with
    | none =>
      rw [hfind] at hsucc
      simp at hsucc
    | some u =>
      rw [hfind] at hsucc
      by_cases hexp : nowMs > u.resetKeyExpires.getD 0
      · simp [hexp] at hsucc
      · refine ⟨u, rfl, ?_⟩
        simp [hexp]

/-- C2: a stored reset key whose expiry lies before the current time is
rejected by both `GET /api/verify-reset-key` and
`POST /api/reset-password`; and a key consumed by a successful
`POST /api/reset-password` is single use — assuming (as the random key
generation guarantees) that no two distinct users hold the same key, a
second reset attempt with it fails as an invalid key. -/
theorem resetKey_expired_rejected_and_single_use (bcryptHash : String → String)
    (dbUsers : List User) (nowMs now2 : Nat) (nowIso nowIso2 : String)
    (k : String) (np np2 : Option String) (u : User) :
    (k ≠ "" → findByResetKey dbUsers k = some u →
      u.resetKeyExpires.getD 0 < nowMs →
      ((verifyResetKey nowMs nowIso dbUsers (some k)).snd.status = 400 ∧
       (verifyResetKey nowMs nowIso dbUsers (some k)).snd.error =
         some "Reset key has expired" ∧
       (resetPassword bcryptHash nowMs nowIso dbUsers (some k) np).snd.status = 400)) ∧
    ((∀ v ∈ dbUsers, ∀ w ∈ dbUsers,
        v.resetKey = some k → w.resetKey = some k → v.id = w.id) →
     jsTruthyStr np2 = true →
     (resetPassword bcryptHash nowMs nowIso dbUsers (some k) np).snd.status = 200 →
     ((resetPassword bcryptHash now2 nowIso2
         (resetPassword bcryptHash nowMs nowIso dbUsers (some k) np).fst
         (some k) np2).snd.status = 400 ∧
      (resetPassword bcryptHash now2 nowIso2
         (resetPassword bcryptHash nowMs nowIso dbUsers (some k) np).fst
         (some k) np2).snd.error = some "Invalid reset key")) := by
  constructor
  · intro hk hfind hexp
    have hkt : jsTruthyStr (some k) = true := by simp [jsTruthyStr, hk]
    have hgt : nowMs > u.resetKeyExpires.getD 0 := hexp
    refine ⟨?_, ?_, ?_⟩
    · unfold verifyResetKey
      simp [hkt, hfind, hgt]
    · unfold verifyResetKey
      simp [hkt, hfind, hgt]
    · unfold resetPassword
      by_cases hnp : jsTruthyStr np = true
      · simp [hkt, hnp, hfind, hgt]
      · have hnpf : jsTruthyStr np = false := by simpa using hnp
        simp [hkt, hnpf]
  · intro huniq hnp2 hsucc
    obtain ⟨hkt, u', hfind, hfst⟩ :=
      resetPassword_success_inversion bcryptHash nowMs nowIso dbUsers k np hsucc
    have humem : u' ∈ dbUsers := by
      have h := hfind
      unfold findByResetKey at h
      exact List.mem_of_find?_eq_some h
    have hukey : u'.resetKey = some k := by
      have h := hfind
      unfold findByResetKey at h
      have := List.find?_some h
      simpa using this
    have hnone : findByResetKey
        (dbUsers.map (fun v => if v.id = u'.id then
          { v with hashedPassword := bcryptHash (np.getD ""),
                   resetKey := none, resetKeyExpires := none,
                   lastPasswordReset := some nowIso,
                   updatedAt := nowIso } else v)) k = none := by
      unfold findByResetKey
      rw [List.find?_eq_none]
      intro x hx
      rw [List.mem_map] at hx
      obtain ⟨v, hv, rfl⟩ := hx
      by_cases hid : v.id = u'.id
      · simp [hid]
      · simp only [if_neg hid]
        intro hkv
        rw [beq_iff_eq] at hkv
        exact hid (huniq v hv u' humem hkv hukey)
    rw [hfst]
    unfold resetPassword
    simp [hkt, hnp2, hnone]

/-- Witness for C2 at concrete databases: an expired key is rejected by
both endpoints, and a consumed key fails on the second attempt. -/
theorem resetKey_expired_rejected_and_single_use_witness :
    ((verifyResetKey 100 "iso"
        [{ id := "u1", email := "a@b.c", username := "alice",
           hashedPassword := "h", displayName := "A",
           resetKey := some "rk", resetKeyExpires := some 10 }] (some "rk")).snd.status = 400 ∧
     (resetPassword (fun s => s) 100 "iso"
        [{ id := "u1", email := "a@b.c", username := "alice",
           hashedPassword := "h", displayName := "A",
           resetKey := some "rk", resetKeyExpires := some 10 }]
        (some "rk") (some "np")).snd.status = 400) ∧
    ((resetPassword (fun s => s) 6 "iso2"
        (resetPassword (fun s => s) 5 "iso"
          [{ id := "u1", email := "a@b.c", username := "alice",
             hashedPassword := "h", displayName := "A",
             resetKey := some "rk", resetKeyExpires := some 10 }]
          (some "rk") (some "np")).fst
        (some "rk") (some "np2")).snd.status = 400 ∧
     (resetPassword (fun s => s) 6 "iso2"
        (resetPassword (fun s => s) 5 "iso"
          [{ id := "u1", email := "a@b.c", username := "alice",
             hashedPassword := "h", displayName := "A",
             resetKey := some "rk", resetKeyExpires := some 10 }]
          (some "rk") (some "np")).fst
        (some "rk") (some "np2")).snd.error = some "Invalid reset key") := by
  constructor
  · have h := (resetKey_expired_rejected_and_single_use (fun s => s)
        [{ id := "u1", email := "a@b.c", username := "alice",
           hashedPassword := "h", displayName := "A",
           resetKey := some "rk", resetKeyExpires := some 10 }] 100 0 "iso" ""
        "rk" (some "np") none
        { id := "u1", email := "a@b.c", username := "alice",
          hashedPassword := "h", displayName := "A",
          resetKey := some "rk", resetKeyExpires := some 10 }).1
      (by decide) rfl (by decide)
    exact ⟨h.1, h.2.2⟩
  · exact (resetKey_expired_rejected_and_single_use (fun s => s)
        [{ id := "u1", email := "a@b.c", username := "alice",
           hashedPassword := "h", displayName := "A",
           resetKey := some "rk", resetKeyExpires := some 10 }] 5 6 "iso" "iso2"
        "rk" (some "np") (some "np2")
        { id := "u1", email := "a@b.c", username := "alice",
          hashedPassword := "h", displayName := "A",
          resetKey := some "rk", resetKeyExpires := some 10 }).2
      (by decide) (by decide) rfl

end Learnonauts
